import Mathlib

/-!
Shallow embedding of the SOSO-Server order-intake and reporting code.

Embedded sources:
- `src/event_relay_api/routes/image_routes.py` : `get_all_image_orders`,
  `get_image_order`, `create_order`, `parse_image_type`.
- `src/scheduler_service/tests/scheduler_report.py` : `create_report`
  (per-groundstation contact counts) and `print_request_breakdown`.

Python machine-level conventions used in the embedding:
- `datetime.timedelta(**{unit: amount})` is modelled as a total count of
  microseconds; an unrecognized keyword or a `None` amount raises `TypeError`.
- Fallible Python code (raised exceptions) is modelled with `Except PyError`.
- The database session is modelled as an explicit `DBState`; `session.commit`
  and `TopicPublisher(...).publish_message(...)` are recorded as an ordered
  trace of `Effect`s so that ordering claims can be stated.
-/

/-- Python exception kinds raised by the embedded routes. -/
inductive PyError where
  | typeError (msg : String)
  | attributeError (msg : String)
  | keyError (key : String)
  | httpException (status : Nat) (detail : String)
deriving DecidableEq, Repr

/-- The `Recurrence` block of the incoming request body
(`image_request.Recurrence` in `create_order`). The pydantic model itself is
not under src; field names and the fields accessed are taken from the accesses
in `create_order`. `Revisit` is a string (the code calls `.lower()=="true"`),
`RevisitFrequency` and `RevisitFrequencyUnits` are optional (Python `None`
models absence). -/
structure Recurrence where
  Revisit : String
  NumberOfRevisits : Nat
  RevisitFrequency : Option Int
  RevisitFrequencyUnits : Option String
deriving DecidableEq, Repr

/-- The incoming request body of `POST /orders/create`, with exactly the
fields `create_order` reads. Timestamps are kept as their ISO strings. -/
structure ImageRequest where
  Latitude : Int
  Longitude : Int
  Priority : Nat
  ImageType : String
  ImageStartTime : String
  ImageEndTime : String
  DeliveryTime : String
  Recurrence : Recurrence
deriving DecidableEq, Repr

/-- The persisted `ImageOrder` row, with the columns `create_order` sets.
`revisit_frequency` is the timedelta in microseconds, `none` = SQL NULL. -/
structure ImageOrder where
  id : Nat
  latitude : Int
  longitude : Int
  priority : Nat
  image_type : String
  start_time : String
  end_time : String
  delivery_deadline : String
  number_of_visits : Nat
  revisit_frequency : Option Int
deriving DecidableEq, Repr

/-- Modelled from the spec: the ORM mapping class `ImageOrder`
(module `app_config.database.mapping`) is not under src, so the value of its
`order_type` attribute is missing. The spec fixes the topic naming convention
to `order.<image_type>.created` ("must be preserved for interoperability"),
and `create_order` publishes on `order.{image_order.order_type}.created`, so
an image order's `order_type` is modelled as its stored image type. -/
def ImageOrder.order_type (o : ImageOrder) : String := o.image_type

/-- The database state visible to the image routes: the `ImageOrder` table
and the autoincrement counter that assigns ids on commit. -/
structure DBState where
  orders : List ImageOrder
  next_id : Nat
deriving DecidableEq, Repr

/-- Observable side effects of `create_order`, in execution order:
`session.commit()` (with the table contents it makes durable) and
`TopicPublisher(rabbit(), topic).publish_message(body)`. -/
inductive Effect where
  | commit (orders : List ImageOrder)
  | publish (topic : String) (body : Nat)
deriving DecidableEq, Repr

/-- The keyword arguments accepted by Python `datetime.timedelta`. -/
def timedelta_keywords : List String :=
  ["weeks", "days", "hours", "minutes", "seconds", "milliseconds", "microseconds"]

/-- `timedelta(**{unit: amount})` as microseconds; `none` when `unit` is not
an accepted keyword (Python raises `TypeError`). -/
def timedelta_microseconds (unit : String) (amount : Int) : Option Int :=
  if unit = "weeks" then some (amount * 7 * 24 * 3600 * 1000000)
  else if unit = "days" then some (amount * 24 * 3600 * 1000000)
  else if unit = "hours" then some (amount * 3600 * 1000000)
  else if unit = "minutes" then some (amount * 60 * 1000000)
  else if unit = "seconds" then some (amount * 1000000)
  else if unit = "milliseconds" then some (amount * 1000)
  else if unit = "microseconds" then some amount
  else none

/-- Python `str.lower()` (over the basic latin range the routes use):
lowercase every character. Defined by structural recursion on the character
list so concrete runs reduce. -/
def py_lower (s : String) : String :=
  String.mk (s.data.map Char.toLower)

/-- The recurrence prologue of `create_order` (lines 54-60): when
`Revisit.lower()=="true"`, build `timedelta(**{frequency_unit: frequency_amount})`
with `frequency_unit = RevisitFrequencyUnits.lower()`; otherwise `None`.
Failure modes follow Python: `RevisitFrequencyUnits` being `None` makes
`.lower()` raise `AttributeError`; an unrecognized unit keyword or a `None`
amount makes `timedelta` raise `TypeError`. -/
def compute_revisit_frequency (rec : Recurrence) : Except PyError (Option Int) :=
  if py_lower rec.Revisit = "true" then
    match rec.RevisitFrequencyUnits with
    | none => .error (.attributeError "NoneType object has no attribute lower")
    | some units =>
      match rec.RevisitFrequency with
      | none =>
        match timedelta_microseconds (py_lower units) 0 with
        | some _ => .error (.typeError "unsupported type for timedelta component")
        | none => .error (.typeError "invalid keyword argument for timedelta")
      | some amount =>
        match timedelta_microseconds (py_lower units) amount with
        | some td => .ok (some td)
        | none => .error (.typeError "invalid keyword argument for timedelta")
  else
    .ok none

/-- `parse_image_type` (lines 80-86): a dict lookup on the lowercased
requested type; a key outside the dict raises `KeyError`. -/
def parse_image_type (request_image_type : String) : Except PyError String :=
  let key := py_lower request_image_type
  if key = "low" then .ok "low"
  else if key = "medium" then .ok "medium"
  else if key = "high" then .ok "spotlight"
  else .error (.keyError key)

/-- The `ImageOrder(...)` row `create_order` constructs, given the already
computed image type and revisit frequency; the id is the autoincrement value
assigned at commit. -/
def built_order (req : ImageRequest) (db : DBState) (image_type : String)
    (revisit_frequency : Option Int) : ImageOrder :=
  { id := db.next_id
    latitude := req.Latitude
    longitude := req.Longitude
    priority := req.Priority
    image_type := image_type
    start_time := req.ImageStartTime
    end_time := req.ImageEndTime
    delivery_deadline := req.DeliveryTime
    number_of_visits := req.Recurrence.NumberOfRevisits + 1
    revisit_frequency := revisit_frequency }

/-- `create_order` (lines 52-78): compute `number_of_visits = NumberOfRevisits + 1`,
compute the revisit frequency, build the row (evaluating `parse_image_type`),
add and commit it, publish the order id on `order.{order_type}.created`, and
return the id. On success the result carries the new database state, the
ordered effect trace, and the returned id. -/
def create_order (image_request : ImageRequest) (db : DBState) :
    Except PyError (DBState × List Effect × Nat) :=
  match compute_revisit_frequency image_request.Recurrence with
  | .error e => .error e
  | .ok revisit_frequency =>
    match parse_image_type image_request.ImageType with
    | .error e => .error e
    | .ok image_type =>
      let image_order := built_order image_request db image_type revisit_frequency
      let db2 : DBState := { orders := db.orders ++ [image_order], next_id := db.next_id + 1 }
      .ok (db2,
           [Effect.commit db2.orders,
            Effect.publish ("order." ++ image_order.order_type ++ ".created") image_order.id],
           image_order.id)

/-- `get_all_image_orders` (lines 22-28). The source builds
`query.limit(per_page).offset((page - 1) * per_page)` but never assigns the
resulting query back, so `query.all()` returns the whole table; the discarded
limited query is kept here as an unused binding to mirror the source line. -/
def get_all_image_orders (page : Nat) (per_page : Nat) (all : Bool) (db : DBState) :
    List ImageOrder :=
  let query := db.orders
  if all = false then
    let _discarded := (query.drop ((page - 1) * per_page)).take per_page
    query
  else
    query

/-- The paginated listing the spec describes for `list_orders(page, per_page, all)`:
with `all=false`, the page-th slice of `per_page` orders at offset
`(page-1)*per_page`; with `all=true`, every stored order. Stated from the
spec's words for comparison with `get_all_image_orders`. -/
def list_orders_paginated (page : Nat) (per_page : Nat) (all : Bool) (db : DBState) :
    List ImageOrder :=
  if all then db.orders
  else (db.orders.drop ((page - 1) * per_page)).take per_page

/-- `get_image_order` (lines 30-36): first row with the given id, else
`HTTPException(404, ...)`. The source's detail string is a plain (non-f)
string, so the braces are literal. -/
def get_image_order (id : Nat) (db : DBState) : Except PyError ImageOrder :=
  match db.orders.find? (fun o => o.id == id) with
  | none => .error (.httpException 404 "Image order with id=\x7bid\x7d does not exist.")
  | some image_order => .ok image_order

/-- A `ScheduleRequest` row, with the columns `scheduler_report.py` reads. -/
structure ScheduleRequest where
  id : Nat
  order_id : Nat
  order_type : String
  status : String
  status_message : Option String
deriving DecidableEq, Repr

/-- A `ContactEvent` row, with the columns `create_report` reads. -/
structure ContactEvent where
  id : Nat
  groundstation_id : Nat
  total_transmission_time : Int
deriving DecidableEq, Repr

/-- The `GROUP BY status` count query of `print_request_breakdown`
(lines 55-59): each status occurring in the request set, paired with the
number of requests having that status. -/
def request_count_by_status (reqs : List ScheduleRequest) : List (String × Nat) :=
  ((reqs.map (fun r => r.status)).dedup).map
    (fun s => (s, (reqs.filter (fun r => r.status == s)).length))

/-- The `GROUP BY (status, status_message)` count query filtered to one
status (lines 61-67): each distinct status message among the requests in that
status (SQL NULL = `none` is its own group), with its count. -/
def breakdown_by_reason (reqs : List ScheduleRequest) (s : String) :
    List (Option String × Nat) :=
  let in_status := reqs.filter (fun r => r.status == s)
  ((in_status.map (fun r => r.status_message)).dedup).map
    (fun m => (m, (in_status.filter (fun r => r.status_message == m)).length))

/-- Python `reason or "Unspecified"`: `None` and the empty string are falsy. -/
def reason_text (m : Option String) : String :=
  match m with
  | none => "Unspecified"
  | some r => if r = "" then "Unspecified" else r

/-- Python `str.capitalize`: first character uppercased, the rest lowercased. -/
def py_capitalize (s : String) : String :=
  match s.data with
  | [] => ""
  | c :: rest => String.mk (c.toUpper :: rest.map Char.toLower)

/-- The per-reason lines printed for one status (lines 68-70): printed only
when the reason breakdown has more than one group (`len(breakdown_by_reason) > 1`). -/
def reason_lines (reqs : List ScheduleRequest) (s : String) (indent : String) :
    List String :=
  let bd := breakdown_by_reason reqs s
  if bd.length > 1 then
    bd.map (fun p => indent ++ "  " ++ toString p.2 ++ ": " ++ reason_text p.1)
  else []

/-- `print_request_breakdown` (lines 53-70) as the list of printed lines:
for each occurring status, its count line followed by its reason lines. -/
def print_request_breakdown (reqs : List ScheduleRequest) (indent : String) :
    List String :=
  ((request_count_by_status reqs).map
    (fun p => (indent ++ py_capitalize p.1 ++ " requests: " ++ toString p.2) ::
              reason_lines reqs p.1 indent)).flatten

/-- The per-groundstation scheduled-contact count of `create_report`
(lines 44-50): contacts of the station with `total_transmission_time > 0`. -/
def scheduled_contacts_count (contacts : List ContactEvent) (gs_id : Nat) : Nat :=
  (contacts.filter
    (fun c => c.groundstation_id == gs_id && decide (0 < c.total_transmission_time))).length

/-! Concrete fixtures used by witnesses and counterexamples. -/

/-- An empty order table. -/
def emptyDB : DBState := { orders := [], next_id := 0 }

/-- A well-formed non-recurring submission (`Revisit="false"`, zero revisits). -/
def lowReq : ImageRequest :=
  { Latitude := 10
    Longitude := 20
    Priority := 1
    ImageType := "Low"
    ImageStartTime := "2024-01-01T00:00:00"
    ImageEndTime := "2024-01-01T01:00:00"
    DeliveryTime := "2024-01-01T02:00:00"
    Recurrence := { Revisit := "false", NumberOfRevisits := 0,
                    RevisitFrequency := none, RevisitFrequencyUnits := none } }

/-- The row `create_order` persists for `lowReq` on `emptyDB`. -/
def lowOrder : ImageOrder :=
  { id := 0
    latitude := 10
    longitude := 20
    priority := 1
    image_type := "low"
    start_time := "2024-01-01T00:00:00"
    end_time := "2024-01-01T01:00:00"
    delivery_deadline := "2024-01-01T02:00:00"
    number_of_visits := 1
    revisit_frequency := none }

/-- The table after persisting `lowOrder`. -/
def lowDB : DBState := { orders := [lowOrder], next_id := 1 }

/-- The effect trace of `create_order lowReq emptyDB`. -/
def lowEffects : List Effect :=
  [Effect.commit [lowOrder], Effect.publish "order.low.created" 0]

/-- A submission with `Revisit="false"` but `NumberOfRevisits = 1`. -/
def repeatFalseRevisitsReq : ImageRequest :=
  { lowReq with Recurrence := { Revisit := "false", NumberOfRevisits := 1,
                                RevisitFrequency := none, RevisitFrequencyUnits := none } }

/-- A recurring submission whose revisit-frequency unit is `"seconds"`,
outside the spec's recognized set {minutes, hours, days, weeks}. -/
def secondsUnitReq : ImageRequest :=
  { lowReq with Recurrence := { Revisit := "true", NumberOfRevisits := 0,
                                RevisitFrequency := some 30,
                                RevisitFrequencyUnits := some "seconds" } }

/-- A recurring submission with an unrecognized unit. -/
def badUnitReq : ImageRequest :=
  { lowReq with Recurrence := { Revisit := "true", NumberOfRevisits := 0,
                                RevisitFrequency := some 5,
                                RevisitFrequencyUnits := some "fortnights" } }

/-- A submission with both an unrecognized unit and an unmapped image type. -/
def badUnitBadTypeReq : ImageRequest :=
  { badUnitReq with ImageType := "ultra" }

/-- A non-recurring submission with an unmapped image type. -/
def ultraReq : ImageRequest := { lowReq with ImageType := "ULTRA" }

/-- A table of two orders, for exercising pagination. -/
def twoOrderDB : DBState :=
  { orders := [lowOrder, { lowOrder with id := 1 }], next_id := 2 }

/-- A schedule-request row template. -/
def mkReq (id : Nat) (status : String) (msg : Option String) : ScheduleRequest :=
  { id := id, order_id := 0, order_type := "imaging", status := status, status_message := msg }

/-- The spec's aggregation example: statuses pending x2, scheduled x3, rejected x1. -/
def sampleReqs : List ScheduleRequest :=
  [mkReq 1 "pending" none, mkReq 2 "pending" none,
   mkReq 3 "scheduled" (some "GS-1"), mkReq 4 "scheduled" (some "GS-2"),
   mkReq 5 "scheduled" (some "GS-3"), mkReq 6 "rejected" (some "conflict")]

/-- Requests all sharing one status and one status message. -/
def sameReasonReqs : List ScheduleRequest :=
  [mkReq 1 "rejected" (some "no opportunity"), mkReq 2 "rejected" (some "no opportunity")]

/-- A contact with zero transmission time. -/
def zeroContact : ContactEvent :=
  { id := 1, groundstation_id := 7, total_transmission_time := 0 }

/-- A contact of station 7 with positive transmission time. -/
def liveContact : ContactEvent :=
  { id := 2, groundstation_id := 7, total_transmission_time := 120 }

/-! Helper lemmas shared across claim theorems. -/

/-- A list whose elements are pairwise equal dedups to at most one element. -/
theorem dedup_length_le_one_of_all_eq {α : Type} [DecidableEq α] (l : List α)
    (h : ∀ a ∈ l, ∀ b ∈ l, a = b) : l.dedup.length ≤ 1 := by
  rcases hd : l.dedup with _ | ⟨x, _ | ⟨y, rest⟩⟩
  · simp
  · simp
  · exfalso
    have hx : x ∈ l.dedup := by rw [hd]; exact List.mem_cons_self _ _
    have hy : y ∈ l.dedup := by rw [hd]; exact List.mem_cons_of_mem _ (List.mem_cons_self _ _)
    have hnd := l.nodup_dedup
    rw [hd] at hnd
    have hxy : x ≠ y := by
      intro he
      rw [he] at hnd
      exact (List.nodup_cons.mp hnd).1 (List.mem_cons_self _ _)
    exact hxy (h x (List.mem_dedup.mp hx) y (List.mem_dedup.mp hy))

/-- A list containing two distinct elements has length at least two. -/
theorem two_le_length_of_mem_ne {α : Type} {l : List α} {a b : α}
    (ha : a ∈ l) (hb : b ∈ l) (hab : a ≠ b) : 2 ≤ l.length := by
  rcases l with _ | ⟨x, _ | ⟨y, t⟩⟩
  · simp at ha
  · simp at ha hb
    rw [ha, hb] at hab
    exact absurd rfl hab
  · simp

/-- An unrecognized unit is exactly what makes the embedded `timedelta` fail. -/
theorem timedelta_microseconds_eq_none (u : String) (a : Int) :
    timedelta_microseconds u a = none ↔ u ∉ timedelta_keywords := by
  unfold timedelta_microseconds timedelta_keywords
  split_ifs with h1 h2 h3 h4 h5 h6 h7 <;> simp_all

/-- Characterization of a successful `create_order` run: the recurrence and
image-type steps succeeded, the built row was appended and committed, and the
trace is commit followed by one publish. -/
theorem create_order_ok_spec (req : ImageRequest) (db : DBState)
    (db2 : DBState) (effects : List Effect) (ret : Nat)
    (h : create_order req db = .ok (db2, effects, ret)) :
    ∃ rf it,
      compute_revisit_frequency req.Recurrence = .ok rf ∧
      parse_image_type req.ImageType = .ok it ∧
      db2 = { orders := db.orders ++ [built_order req db it rf], next_id := db.next_id + 1 } ∧
      effects = [Effect.commit db2.orders,
                 Effect.publish ("order." ++ (built_order req db it rf).order_type ++ ".created")
                   (built_order req db it rf).id] ∧
      ret = (built_order req db it rf).id := by
  unfold create_order at h
  cases hrf : compute_revisit_frequency req.Recurrence with
  | error e => rw [hrf] at h; exact absurd h (by simp)
  | ok rf =>
    rw [hrf] at h
    cases hit : parse_image_type req.ImageType with
    | error e => rw [hit] at h; exact absurd h (by simp)
    | ok it =>
      rw [hit] at h
      simp only [Except.ok.injEq, Prod.mk.injEq] at h
      obtain ⟨h1, h2, h3⟩ := h
      subst h1
      subst h2
      subst h3
      exact ⟨rf, it, rfl, rfl, rfl, rfl, rfl⟩

/-- The recurrence step yields a non-null frequency exactly on the
`Revisit.lower()=="true"` branch. -/
theorem compute_revisit_frequency_isSome (rec : Recurrence) (rf : Option Int)
    (h : compute_revisit_frequency rec = .ok rf) :
    (rf.isSome = true ↔ py_lower rec.Revisit = "true") := by
  unfold compute_revisit_frequency at h
  by_cases hrep : py_lower rec.Revisit = "true"
  · rw [if_pos hrep] at h
    cases hu : rec.RevisitFrequencyUnits with
    | none => rw [hu] at h; exact absurd h (by simp)
    | some units =>
      rw [hu] at h
      simp only [] at h
      cases hf : rec.RevisitFrequency with
      | none =>
        rw [hf] at h
        simp only [] at h
        cases htd : timedelta_microseconds (py_lower units) 0 with
        | none => rw [htd] at h; exact absurd h (by simp)
        | some v => rw [htd] at h; exact absurd h (by simp)
      | some amount =>
        rw [hf] at h
        simp only [] at h
        cases htd : timedelta_microseconds (py_lower units) amount with
        | none => rw [htd] at h; exact absurd h (by simp)
        | some td =>
          rw [htd] at h
          simp only [Except.ok.injEq] at h
          rw [← h]
          simp [hrep]
  · rw [if_neg hrep] at h
    simp only [Except.ok.injEq] at h
    rw [← h]
    simp [hrep]

/-- The reason lines for a status are empty exactly when the in-status
requests carry at most one distinct status message. -/
theorem reason_lines_eq_nil_iff (reqs : List ScheduleRequest) (s indent : String) :
    (reason_lines reqs s indent = [] ↔
      (((reqs.filter (fun r => r.status == s)).map
        (fun r => r.status_message)).dedup).length ≤ 1) := by
  unfold reason_lines breakdown_by_reason
  simp only [List.length_map]
  split_ifs with h
  · rw [List.map_eq_nil_iff, List.map_eq_nil_iff]
    constructor
    · intro he
      rw [he] at h
      simp at h
    · intro hle
      exact absurd h (by omega)
  · simp only [true_iff, eq_self_iff_true]
    omega

/-! Claim theorems. -/

/-- C3: `list_orders` with `all=false`, `page=1`, `per_page=1` on a store of
two orders returns both orders, not the one-order page the claim states: the
source builds `query.limit(per_page).offset((page-1)*per_page)` but discards
the result and returns `query.all()`. With `all=true` every order is returned
as claimed. -/
theorem get_all_image_orders_ignores_pagination :
    get_all_image_orders 1 1 false twoOrderDB = twoOrderDB.orders ∧
    (get_all_image_orders 1 1 false twoOrderDB).length = 2 ∧
    (list_orders_paginated 1 1 false twoOrderDB).length = 1 ∧
    get_all_image_orders 1 1 true twoOrderDB = twoOrderDB.orders :=
  ⟨rfl, rfl, rfl, rfl⟩

/-- C5: `get_order` returns `HTTPException(404, ...)` when no stored order has
the requested id, and returns the stored order whose id matches when one
exists (ids being unique, per the data model). -/
theorem get_image_order_found_or_404 (db : DBState) (id : Nat) :
    ((∀ o ∈ db.orders, o.id ≠ id) →
      get_image_order id db =
        .error (.httpException 404 "Image order with id=\x7bid\x7d does not exist.")) ∧
    ((db.orders.map ImageOrder.id).Nodup →
      ∀ o ∈ db.orders, o.id = id → get_image_order id db = .ok o) := by
  constructor
  · intro hnone
    unfold get_image_order
    have hfind : db.orders.find? (fun o => o.id == id) = none := by
      rw [List.find?_eq_none]
      intro o ho
      simpa using hnone o ho
    rw [hfind]
  · intro hnd o ho hoid
    unfold get_image_order
    have hsome : (db.orders.find? (fun o => o.id == id)).isSome := by
      rw [List.find?_isSome]
      exact ⟨o, ho, by simpa using hoid⟩
    obtain ⟨a, ha⟩ := Option.isSome_iff_exists.mp hsome
    have hamem := List.mem_of_find?_eq_some ha
    have hap := List.find?_some ha
    have haid : a.id = id := by simpa using hap
    have hao : a = o := List.inj_on_of_nodup_map hnd hamem ho (by rw [haid, hoid])
    rw [ha, hao]

/-- C5 witness: on a one-order table, looking up the stored id returns the
order and looking up a missing id returns the 404 error. -/
theorem get_image_order_found_or_404_witness :
    get_image_order 0 lowDB = .ok lowOrder ∧
    get_image_order 5 lowDB =
      .error (.httpException 404 "Image order with id=\x7bid\x7d does not exist.") :=
  ⟨(get_image_order_found_or_404 lowDB 0).2 (by decide) lowOrder (by decide) (by decide),
   (get_image_order_found_or_404 lowDB 5).1 (by decide)⟩

/-- C6: for every request set and every status that occurs in it, the
per-status breakdown contains that status paired with exactly the number of
requests in that status, and any pair it contains for that status carries
that same count. -/
theorem status_breakdown_counts (reqs : List ScheduleRequest) (s : String)
    (h : ∃ r ∈ reqs, r.status = s) :
    (s, (reqs.filter (fun r => r.status == s)).length) ∈ request_count_by_status reqs ∧
    ∀ p ∈ request_count_by_status reqs, p.1 = s →
      p.2 = (reqs.filter (fun r => r.status == s)).length := by
  constructor
  · unfold request_count_by_status
    apply List.mem_map.mpr
    refine ⟨s, ?_, rfl⟩
    rw [List.mem_dedup]
    obtain ⟨r, hr, hrs⟩ := h
    exact List.mem_map.mpr ⟨r, hr, hrs⟩
  · intro p hp hps
    unfold request_count_by_status at hp
    obtain ⟨a, _, hap⟩ := List.mem_map.mp hp
    rw [← hap] at hps ⊢
    simp only at hps ⊢
    rw [hps]

/-- C6 witness: the spec's aggregation example; statuses pending x2,
scheduled x3, rejected x1 yield the counts 2, 3 and 1. -/
theorem status_breakdown_counts_witness :
    (("pending", (sampleReqs.filter (fun r => r.status == "pending")).length) ∈
      request_count_by_status sampleReqs ∧
      ∀ p ∈ request_count_by_status sampleReqs, p.1 = "pending" →
        p.2 = (sampleReqs.filter (fun r => r.status == "pending")).length) ∧
    (sampleReqs.filter (fun r => r.status == "pending")).length = 2 ∧
    (sampleReqs.filter (fun r => r.status == "scheduled")).length = 3 ∧
    (sampleReqs.filter (fun r => r.status == "rejected")).length = 1 :=
  ⟨status_breakdown_counts sampleReqs "pending" (by decide), by decide, by decide, by decide⟩

/-- C9: the per-reason lines for a status are printed only when at least two
distinct status messages occur among that status's requests: if all requests
in the status share one message (or all lack one) no reason line is printed,
and if two requests in the status disagree on the message the lines are
printed. -/
theorem reason_lines_require_two_reasons (reqs : List ScheduleRequest) (s indent : String) :
    ((∀ r1 ∈ reqs, ∀ r2 ∈ reqs, r1.status = s → r2.status = s →
        r1.status_message = r2.status_message) →
      reason_lines reqs s indent = []) ∧
    (∀ r1 ∈ reqs, ∀ r2 ∈ reqs, r1.status = s → r2.status = s →
      r1.status_message ≠ r2.status_message →
      reason_lines reqs s indent ≠ []) := by
  constructor
  · intro hall
    rw [reason_lines_eq_nil_iff]
    apply dedup_length_le_one_of_all_eq
    intro a ha b hb
    obtain ⟨r1, hr1, hr1e⟩ := List.mem_map.mp ha
    obtain ⟨r2, hr2, hr2e⟩ := List.mem_map.mp hb
    obtain ⟨hm1, hs1⟩ := List.mem_filter.mp hr1
    obtain ⟨hm2, hs2⟩ := List.mem_filter.mp hr2
    rw [← hr1e, ← hr2e]
    exact hall r1 hm1 r2 hm2 (by simpa using hs1) (by simpa using hs2)
  · intro r1 hr1 r2 hr2 hs1 hs2 hne hnil
    rw [reason_lines_eq_nil_iff] at hnil
    have hmem1 : r1.status_message ∈
        ((reqs.filter (fun r => r.status == s)).map (fun r => r.status_message)).dedup := by
      rw [List.mem_dedup]
      exact List.mem_map.mpr ⟨r1, List.mem_filter.mpr ⟨hr1, by simpa using hs1⟩, rfl⟩
    have hmem2 : r2.status_message ∈
        ((reqs.filter (fun r => r.status == s)).map (fun r => r.status_message)).dedup := by
      rw [List.mem_dedup]
      exact List.mem_map.mpr ⟨r2, List.mem_filter.mpr ⟨hr2, by simpa using hs2⟩, rfl⟩
    have := two_le_length_of_mem_ne hmem1 hmem2 hne
    omega

/-- C9 witness: two rejected requests sharing one reason print no reason line. -/
theorem reason_lines_require_two_reasons_witness :
    reason_lines sameReasonReqs "rejected" "   " = [] :=
  (reason_lines_require_two_reasons sameReasonReqs "rejected" "   ").1 (by decide)

/-- C10: the per-groundstation scheduled-contact count ignores a contact with
non-positive transmission time and a contact of another station, and counts a
contact of the station with strictly positive transmission time exactly once. -/
theorem scheduled_contacts_only_positive (contacts : List ContactEvent) (gs_id : Nat)
    (c : ContactEvent) :
    (c.total_transmission_time ≤ 0 →
      scheduled_contacts_count (c :: contacts) gs_id = scheduled_contacts_count contacts gs_id) ∧
    (c.groundstation_id ≠ gs_id →
      scheduled_contacts_count (c :: contacts) gs_id = scheduled_contacts_count contacts gs_id) ∧
    (c.groundstation_id = gs_id → 0 < c.total_transmission_time →
      scheduled_contacts_count (c :: contacts) gs_id =
        scheduled_contacts_count contacts gs_id + 1) := by
  unfold scheduled_contacts_count
  refine ⟨?_, ?_, ?_⟩
  · intro h
    have hd : decide (0 < c.total_transmission_time) = false := by
      simp
      omega
    simp [List.filter_cons, hd]
  · intro h
    simp [List.filter_cons, beq_iff_eq, h]
  · intro h1 h2
    simp [List.filter_cons, beq_iff_eq, h1, h2]

/-- C10 witness: a zero-transmission contact of station 7 does not change the
station's scheduled-contact count. -/
theorem scheduled_contacts_only_positive_witness :
    scheduled_contacts_count (zeroContact :: [liveContact]) 7 =
      scheduled_contacts_count [liveContact] 7 :=
  (scheduled_contacts_only_positive [liveContact] 7 zeroContact).1 (by decide)

/-- C1 counterexample: a submission with repeat=false (`Revisit="false"`) but
`NumberOfRevisits=1` is persisted with `number_of_visits = 2`, not the 1 the
claim states: the code computes `NumberOfRevisits + 1` before, and regardless
of, the repeat check. -/
theorem repeat_false_not_single_visit :
    (create_order repeatFalseRevisitsReq emptyDB).toOption.map
      (fun t => t.1.orders.map (fun o => o.number_of_visits)) = some [2] ∧
    py_lower repeatFalseRevisitsReq.Recurrence.Revisit ≠ "true" :=
  ⟨by rfl, by decide⟩

/-- C1 (amended): every persisted order stores
`number_of_visits = NumberOfRevisits + 1` regardless of the repeat flag (so
n+1 requests are derived for repeat=true with revisit_count=n, but 1 for
repeat=false only when the submitted revisit count is 0), and stores the
submission's window verbatim. -/
theorem number_of_visits_ignores_repeat (req : ImageRequest) (db : DBState)
    (db2 : DBState) (effects : List Effect) (ret : Nat)
    (h : create_order req db = .ok (db2, effects, ret)) :
    ∃ o, db2.orders = db.orders ++ [o] ∧
      o.number_of_visits = req.Recurrence.NumberOfRevisits + 1 ∧
      o.start_time = req.ImageStartTime ∧
      o.end_time = req.ImageEndTime := by
  obtain ⟨rf, it, hrf, hit, hdb, heff, hret⟩ := create_order_ok_spec req db db2 effects ret h
  exact ⟨built_order req db it rf, by rw [hdb], rfl, rfl, rfl⟩

/-- C1 amended witness: the non-recurring submission with revisit count 0 is
stored with one visit and its own window. -/
theorem number_of_visits_ignores_repeat_witness :
    ∃ o, lowDB.orders = emptyDB.orders ++ [o] ∧
      o.number_of_visits = lowReq.Recurrence.NumberOfRevisits + 1 ∧
      o.start_time = lowReq.ImageStartTime ∧
      o.end_time = lowReq.ImageEndTime :=
  number_of_visits_ignores_repeat lowReq emptyDB lowDB lowEffects 0 (by rfl)

/-- C2 counterexample: a recurring submission whose unit is "seconds" —
outside the claimed recognized set {minutes, hours, days, weeks} — does not
fail: the order is persisted with a 30-second revisit frequency. -/
theorem seconds_unit_accepted :
    (create_order secondsUnitReq emptyDB).toOption.map
      (fun t => (t.1.orders.length, t.1.orders.map (fun o => o.revisit_frequency))) =
      some (1, [some 30000000]) ∧
    py_lower "seconds" ∉ ["minutes", "hours", "days", "weeks"] :=
  ⟨by rfl, by decide⟩

/-- C2 (amended): for a recurring submission whose revisit parameters are
malformed — absent frequency amount, absent unit, or a lowercased unit that
is not a Python timedelta keyword (weeks, days, hours, minutes, seconds,
milliseconds, microseconds) — intake fails with an unhandled Python
`TypeError` or `AttributeError` (the code defines no `InvalidRecurrence`),
never a `KeyError`, and no order is persisted. -/
theorem recurrence_errors_unhandled (req : ImageRequest) (db : DBState)
    (hrep : py_lower req.Recurrence.Revisit = "true")
    (hbad : req.Recurrence.RevisitFrequency = none ∨
      req.Recurrence.RevisitFrequencyUnits = none ∨
      (∃ u, req.Recurrence.RevisitFrequencyUnits = some u ∧
        py_lower u ∉ timedelta_keywords)) :
    ∃ e, create_order req db = .error e ∧
      ((∃ m, e = PyError.typeError m) ∨ (∃ m, e = PyError.attributeError m)) ∧
      (∀ k, e ≠ PyError.keyError k) ∧
      (∀ result, create_order req db ≠ .ok result) := by
  have herr : ∃ e, compute_revisit_frequency req.Recurrence = .error e ∧
      ((∃ m, e = PyError.typeError m) ∨ (∃ m, e = PyError.attributeError m)) := by
    unfold compute_revisit_frequency
    rw [if_pos hrep]
    cases hu : req.Recurrence.RevisitFrequencyUnits with
    | none => exact ⟨_, rfl, Or.inr ⟨_, rfl⟩⟩
    | some units =>
      simp only []
      cases hf : req.Recurrence.RevisitFrequency with
      | none =>
        simp only []
        cases htd : timedelta_microseconds (py_lower units) 0 with
        | none => exact ⟨_, rfl, Or.inl ⟨_, rfl⟩⟩
        | some v => exact ⟨_, rfl, Or.inl ⟨_, rfl⟩⟩
      | some amount =>
        simp only []
        have hnone : timedelta_microseconds (py_lower units) amount = none := by
          rw [timedelta_microseconds_eq_none]
          rcases hbad with hb | hb | ⟨u, hu2, hnotin⟩
          · rw [hb] at hf
            exact absurd hf (by simp)
          · rw [hb] at hu
            exact absurd hu (by simp)
          · rw [hu] at hu2
            injection hu2 with hue
            subst hue
            exact hnotin
        rw [hnone]
        exact ⟨_, rfl, Or.inl ⟨_, rfl⟩⟩
  obtain ⟨e, he, hshape⟩ := herr
  have hco : create_order req db = .error e := by
    unfold create_order
    rw [he]
  refine ⟨e, hco, hshape, ?_, ?_⟩
  · intro k
    rcases hshape with ⟨m, hm⟩ | ⟨m, hm⟩ <;> rw [hm] <;> simp
  · intro result
    rw [hco]
    simp

/-- C2 amended witness: a recurring submission with unit "fortnights" fails
with a `TypeError` and is not persisted. -/
theorem recurrence_errors_unhandled_witness :
    ∃ e, create_order badUnitReq emptyDB = .error e ∧
      ((∃ m, e = PyError.typeError m) ∨ (∃ m, e = PyError.attributeError m)) ∧
      (∀ k, e ≠ PyError.keyError k) ∧
      (∀ result, create_order badUnitReq emptyDB ≠ .ok result) :=
  recurrence_errors_unhandled badUnitReq emptyDB (by rfl)
    (Or.inr (Or.inr ⟨"fortnights", rfl, by decide⟩))

/-- C4: on every successful `create_order` run, the persisted order whose id
is returned exists in the committed store, the effect trace is exactly one
commit followed by exactly one publish, the publish carries the order's id on
topic `order.<order_type>.created` where `order_type` is the order's image
type, and the returned value is that id. -/
theorem create_order_publishes_once_after_commit (req : ImageRequest) (db : DBState)
    (db2 : DBState) (effects : List Effect) (ret : Nat)
    (h : create_order req db = .ok (db2, effects, ret)) :
    ∃ o, o ∈ db2.orders ∧ o.id = ret ∧ o.order_type = o.image_type ∧
      effects = [Effect.commit db2.orders,
                 Effect.publish ("order." ++ o.image_type ++ ".created") o.id] := by
  obtain ⟨rf, it, hrf, hit, hdb, heff, hret⟩ := create_order_ok_spec req db db2 effects ret h
  refine ⟨built_order req db it rf, ?_, hret.symm, rfl, ?_⟩
  · rw [hdb]
    simp
  · rw [heff]
    rfl

/-- C4 witness: the non-recurring submission commits one order and then
publishes its id 0 on `order.low.created`. -/
theorem create_order_publishes_once_after_commit_witness :
    ∃ o, o ∈ lowDB.orders ∧ o.id = 0 ∧ o.order_type = o.image_type ∧
      lowEffects = [Effect.commit lowDB.orders,
                    Effect.publish ("order." ++ o.image_type ++ ".created") o.id] :=
  create_order_publishes_once_after_commit lowReq emptyDB lowDB lowEffects 0 (by rfl)

/-- C7: the order persisted by a successful `create_order` run has a non-null
`revisit_frequency` exactly when the submission's repeat flag is true
(`Revisit.lower() == "true"`); when it is false the stored frequency is null. -/
theorem revisit_frequency_iff_repeat (req : ImageRequest) (db : DBState)
    (db2 : DBState) (effects : List Effect) (ret : Nat)
    (h : create_order req db = .ok (db2, effects, ret)) :
    ∃ o, db2.orders = db.orders ++ [o] ∧
      (o.revisit_frequency.isSome = true ↔ py_lower req.Recurrence.Revisit = "true") := by
  obtain ⟨rf, it, hrf, hit, hdb, heff, hret⟩ := create_order_ok_spec req db db2 effects ret h
  exact ⟨built_order req db it rf, by rw [hdb],
    compute_revisit_frequency_isSome req.Recurrence rf hrf⟩

/-- C7 witness: the non-recurring submission is stored with a null revisit
frequency. -/
theorem revisit_frequency_iff_repeat_witness :
    ∃ o, lowDB.orders = emptyDB.orders ++ [o] ∧
      (o.revisit_frequency.isSome = true ↔ py_lower lowReq.Recurrence.Revisit = "true") :=
  revisit_frequency_iff_repeat lowReq emptyDB lowDB lowEffects 0 (by rfl)

/-- C8 counterexample: when the recurrence parameters are themselves invalid,
the `TypeError` they raise preempts the image-type lookup, so a submission
with an unmapped image type does not raise `KeyError` as the claim states for
every call. -/
theorem type_error_preempts_key_error :
    create_order badUnitBadTypeReq emptyDB =
      .error (.typeError "invalid keyword argument for timedelta") ∧
    (∀ k, create_order badUnitBadTypeReq emptyDB ≠ .error (.keyError k)) ∧
    py_lower badUnitBadTypeReq.ImageType ≠ "low" ∧
    py_lower badUnitBadTypeReq.ImageType ≠ "medium" ∧
    py_lower badUnitBadTypeReq.ImageType ≠ "high" := by
  refine ⟨by rfl, ?_, by decide, by decide, by decide⟩
  intro k h
  rw [show create_order badUnitBadTypeReq emptyDB =
      .error (.typeError "invalid keyword argument for timedelta") from by rfl] at h
  exact absurd h (by simp)

/-- C8 (amended): the requested image type is mapped case-insensitively by
the closed mapping low→low, medium→medium, high→spotlight; outside this set,
provided the recurrence step did not itself raise, `create_order` raises an
unhandled `KeyError` on the lowercased type (not a ValidationError, which the
code does not define) and no order is persisted. -/
theorem image_type_closed_mapping (req : ImageRequest) (db : DBState) (rf : Option Int)
    (hrec : compute_revisit_frequency req.Recurrence = .ok rf) :
    (py_lower req.ImageType = "low" → parse_image_type req.ImageType = .ok "low") ∧
    (py_lower req.ImageType = "medium" → parse_image_type req.ImageType = .ok "medium") ∧
    (py_lower req.ImageType = "high" → parse_image_type req.ImageType = .ok "spotlight") ∧
    (py_lower req.ImageType ≠ "low" → py_lower req.ImageType ≠ "medium" →
      py_lower req.ImageType ≠ "high" →
      create_order req db = .error (.keyError (py_lower req.ImageType)) ∧
      ∀ result, create_order req db ≠ .ok result) := by
  refine ⟨?_, ?_, ?_, ?_⟩
  · intro h
    simp [parse_image_type, h]
  · intro h
    simp [parse_image_type, h]
  · intro h
    simp [parse_image_type, h]
  · intro h1 h2 h3
    have hkey : parse_image_type req.ImageType =
        .error (.keyError (py_lower req.ImageType)) := by
      simp only [parse_image_type]
      rw [if_neg h1, if_neg h2, if_neg h3]
    constructor
    · simp [create_order, hrec, hkey]
    · intro result
      simp [create_order, hrec, hkey]

/-- C8 amended witness: a non-recurring submission with image type "ULTRA"
raises `KeyError` on "ultra". -/
theorem image_type_closed_mapping_witness :
    create_order ultraReq emptyDB = .error (.keyError (py_lower ultraReq.ImageType)) :=
  ((image_type_closed_mapping ultraReq emptyDB none (by rfl)).2.2.2
    (by decide) (by decide) (by decide)).1
